import Mathlib

/-!
Shallow embedding of `lgswitch.py` (LG TV auto-switcher daemon).

The embedding mirrors the two core classes:

* `TVSwitcher` — manages the TV connection and input switching.  Its
  interactions with the external device-control client (`bscpylgtv`
  `WebOsClient`) can each raise; we model a single invocation's external
  behaviour as a record of success booleans, one per client operation,
  and model Python exception flow with `Except Unit`.
* `KeyboardMonitor` — filters udev events down to the one target keyboard,
  debounces them, tracks presence state, and schedules switch actions.

`switch_input` additionally returns a trace of the device-control
operations it attempted, each paired with that attempt's outcome, so that
properties such as "a disconnect is attempted on every path" are
expressible.
-/

/-- Device-control client operations performed by `TVSwitcher.switch_input`
(storage setup, client creation, connect, screen wake, app launch,
disconnect). -/
inductive Op where
  | storage
  | create
  | conn
  | wake
  | launch
  | disc
deriving DecidableEq, Repr

/-- External behaviour of one `switch_input` invocation: whether each
device-control operation, in program order, succeeds when attempted.
`discOk2` is the outcome of the extra disconnect attempted inside the
exception handler. -/
structure Beh where
  storageOk : Bool
  createOk : Bool
  connectOk : Bool
  wakeOk : Bool
  launchOk : Bool
  discOk : Bool
  discOk2 : Bool
deriving DecidableEq

/-- Equivalence packing a `Beh` as a tuple of booleans, used to obtain a
computable `Fintype` instance so that properties quantified over all
behaviours can be decided by enumeration. -/
def behEquiv : Beh ≃ (Bool × Bool × Bool × Bool × Bool × Bool × Bool) where
  toFun b := (b.storageOk, b.createOk, b.connectOk, b.wakeOk, b.launchOk, b.discOk, b.discOk2)
  invFun p := ⟨p.1, p.2.1, p.2.2.1, p.2.2.2.1, p.2.2.2.2.1, p.2.2.2.2.2.1, p.2.2.2.2.2.2⟩
  left_inv := fun _ => rfl
  right_inv := fun _ => rfl

instance : Fintype Beh := Fintype.ofEquiv _ behEquiv.symm

instance : DecidableEq (Except Unit Bool) := fun a b =>
  match a, b with
  | .error _, .error _ => isTrue rfl
  | .error _, .ok _ => isFalse (fun h => Except.noConfusion h)
  | .ok _, .error _ => isFalse (fun h => Except.noConfusion h)
  | .ok x, .ok y =>
    if h : x = y then isTrue (h ▸ rfl)
    else isFalse (fun hh => h (Except.ok.inj hh))

/-- Result of the `try:` block of `switch_input`: the Python value or the
escaping exception, whether the local `client` variable had been bound to a
created client when control left the block, and the trace of attempted
operations with their outcomes. -/
structure TryRes where
  result : Except Unit Bool
  clientSet : Bool
  trace : List (Op × Bool)
deriving DecidableEq

/-- Body of the `try:` block in `TVSwitcher.switch_input` (lines 100-125 of
`lgswitch.py`): storage setup, `WebOsClient.create`, `client.connect()`, the
inner try around `client.turn_screen_on()` (attempted only when `connected`
and `turn_on_screen`, its failure swallowed), `client.launch_app(...)`,
`client.disconnect()`, then `return True`. -/
def switch_try (b : Beh) (connected turn_on_screen : Bool) : TryRes :=
  if !b.storageOk then ⟨.error (), false, [(.storage, false)]⟩ else
  if !b.createOk then ⟨.error (), false, [(.storage, true), (.create, false)]⟩ else
  if !b.connectOk then
    ⟨.error (), true, [(.storage, true), (.create, true), (.conn, false)]⟩
  else
    let tr0 := [(Op.storage, true), (Op.create, true), (Op.conn, true)]
    let tr1 := if connected && turn_on_screen then tr0 ++ [(Op.wake, b.wakeOk)] else tr0
    if !b.launchOk then ⟨.error (), true, tr1 ++ [(.launch, false)]⟩ else
    if !b.discOk then ⟨.error (), true, tr1 ++ [(.launch, true), (.disc, false)]⟩ else
    ⟨.ok true, true, tr1 ++ [(.launch, true), (.disc, true)]⟩

/-- `TVSwitcher.switch_input` (lines 92-134): run the `try:` body; on an
escaping exception the `except` handler attempts `client.disconnect()` when
`client` is bound (swallowing any error from it) and returns `False`.
Returns the Python outcome (`Except.error` would mean an exception escaped
`switch_input` itself) together with the operation trace. -/
def switch_input (b : Beh) (connected turn_on_screen : Bool) :
    Except Unit Bool × List (Op × Bool) :=
  let a := switch_try b connected turn_on_screen
  match a.result with
  | .ok v => (.ok v, a.trace)
  | .error _ =>
    if a.clientSet then (.ok false, a.trace ++ [(Op.disc, b.discOk2)])
    else (.ok false, a.trace)

/-- State of a `TVSwitcher` instance relevant to connect/disconnect/cleanup:
whether `self.client` is non-`None`, whether `self.storage` has been set up,
and the `self._cleanup_done` flag. -/
structure TVSwitcher where
  client : Bool
  storage : Bool
  cleanup_done : Bool
deriving DecidableEq

/-- Equivalence packing a `TVSwitcher` state as a tuple of booleans, to
obtain a computable `Fintype` instance. -/
def tvEquiv : TVSwitcher ≃ (Bool × Bool × Bool) where
  toFun s := (s.client, s.storage, s.cleanup_done)
  invFun p := ⟨p.1, p.2.1, p.2.2⟩
  left_inv := fun _ => rfl
  right_inv := fun _ => rfl

instance : Fintype TVSwitcher := Fintype.ofEquiv _ tvEquiv.symm

/-- External behaviour of one `TVSwitcher.connect` invocation: whether the
storage setup and whether `client.connect()` succeed when attempted. -/
structure ConnBeh where
  storageOk : Bool
  connOk : Bool
deriving DecidableEq

/-- Equivalence packing a `ConnBeh` as a pair of booleans, to obtain a
computable `Fintype` instance. -/
def connEquiv : ConnBeh ≃ (Bool × Bool) where
  toFun b := (b.storageOk, b.connOk)
  invFun p := ⟨p.1, p.2⟩
  left_inv := fun _ => rfl
  right_inv := fun _ => rfl

instance : Fintype ConnBeh := Fintype.ofEquiv _ connEquiv.symm

/-- `TVSwitcher.connect` (lines 51-71): early-return `True` when a client is
already held; otherwise set up storage, create the client, connect.  Any
exception is caught, `self.client` is reset to `None`, and `False` is
returned. -/
def TVSwitcher.connect (self : TVSwitcher) (b : ConnBeh) : Bool × TVSwitcher :=
  if self.client then (true, self)
  else if !self.storage && !b.storageOk then (false, { self with client := false })
  else
    let s1 : TVSwitcher := { self with storage := true, client := true }
    if b.connOk then (true, s1)
    else (false, { s1 with client := false })

/-- `TVSwitcher.disconnect` (lines 73-82): when a client is held, attempt
`client.disconnect()` (an error is caught and logged) and in the `finally`
clause reset `self.client` to `None`.  Returns the new state and the list of
underlying `client.disconnect()` attempts with their outcomes. -/
def TVSwitcher.disconnect (self : TVSwitcher) (discOk : Bool) :
    TVSwitcher × List Bool :=
  if self.client then ({ self with client := false }, [discOk])
  else (self, [])

/-- `TVSwitcher.cleanup` (lines 84-90): return immediately when
`_cleanup_done` is already set; otherwise set the flag and run
`disconnect`. -/
def TVSwitcher.cleanup (self : TVSwitcher) (discOk : Bool) :
    TVSwitcher × List Bool :=
  if self.cleanup_done then (self, [])
  else TVSwitcher.disconnect { self with cleanup_done := true } discOk

/-- Repeated invocations of `TVSwitcher.cleanup`, one per element of the
list of would-be underlying disconnect outcomes; collects all underlying
`client.disconnect()` attempts performed across the invocations. -/
def TVSwitcher.cleanupN (self : TVSwitcher) : List Bool → TVSwitcher × List Bool
  | [] => (self, [])
  | ok :: rest =>
    let p := TVSwitcher.cleanup self ok
    let q := TVSwitcher.cleanupN p.1 rest
    (q.1, p.2 ++ q.2)

/-- Model of Python's `str.lower()`: lowercase each character.  Defined by
structural recursion over the character list so that it evaluates inside
the kernel. -/
def str_lower (s : String) : String := ⟨s.data.map Char.toLower⟩

/-- Metadata of a udev device record as read by `device.get(...)`: each
property is either absent (`none`) or a string. -/
structure Device where
  ID_BUS : Option String
  ID_INPUT_KEYBOARD : Option String
  ID_VENDOR_ID : Option String
  ID_MODEL_ID : Option String
deriving DecidableEq

/-- State of a `KeyboardMonitor` instance: the target identifiers (stored
lowercased by `__init__`), the tracked presence state
(`none` = unknown), the debouncing timestamp and window, and whether
`self.loop` has been set (done by `start_monitoring` before any event is
handled). -/
structure KeyboardMonitor where
  vendor_id : String
  model_id : String
  keyboard_connected : Option Bool
  last_event_time : ℚ
  debounce_delay : ℚ
  loop_set : Bool
deriving DecidableEq

/-- `KeyboardMonitor.__init__` (lines 140-150): lowercase the configured
vendor and model identifiers, presence unknown, `last_event_time = 0`,
debounce window 0.5 s, no event loop yet. -/
def KeyboardMonitor.init (vendor_id model_id : String) : KeyboardMonitor :=
  ⟨str_lower vendor_id, str_lower model_id, none, 0, 1/2, false⟩

/-- `KeyboardMonitor.is_target_keyboard` (lines 152-163): a device is the
target keyboard when its bus is "usb", it declares keyboard capability, and
its lowercased vendor and model identifiers equal the stored target
identifiers. -/
def is_target_keyboard (self : KeyboardMonitor) (device : Device) : Bool :=
  if device.ID_BUS != some "usb" then false
  else if device.ID_INPUT_KEYBOARD != some "1" then false
  else
    let vendor_id := str_lower (device.ID_VENDOR_ID.getD "")
    let model_id := str_lower (device.ID_MODEL_ID.getD "")
    vendor_id == self.vendor_id && model_id == self.model_id

/-- Inline qualification test of the startup scan in
`KeyboardMonitor.check_initial_state` (lines 171-175): keyboard capability,
usb bus, then lowercased vendor/model comparison. -/
def initial_scan_match (self : KeyboardMonitor) (device : Device) : Bool :=
  device.ID_INPUT_KEYBOARD == some "1" && device.ID_BUS == some "usb" &&
    (str_lower (device.ID_VENDOR_ID.getD "") == self.vendor_id &&
     str_lower (device.ID_MODEL_ID.getD "") == self.model_id)

/-- `KeyboardMonitor.check_initial_state` (lines 165-183) on a given
enumeration of the input subsystem: if some device passes the inline scan
test, record presence and issue `switch_input(True)`; otherwise record
absence and issue `switch_input(False)`.  Returns the new monitor state
and the list of issued switch-action targets. -/
def check_initial_state (self : KeyboardMonitor) (devices : List Device) :
    KeyboardMonitor × List Bool :=
  if devices.any (fun d => initial_scan_match self d) then
    ({ self with keyboard_connected := some true }, [true])
  else
    ({ self with keyboard_connected := some false }, [false])

/-- `KeyboardMonitor.handle_device_event` (lines 185-224) at wall-clock time
`now`: drop the event unless the device is the target keyboard; drop it when
it arrives within the debounce window of the last accepted event; otherwise
record the acceptance time and, for an "add" ("remove") action whose target
presence differs from the tracked presence, update the tracked presence and
schedule a switch action when the event loop is set.  Returns the new
monitor state and the scheduled switch-action target, if any. -/
def handle_device_event (self : KeyboardMonitor) (now : ℚ) (action : String)
    (device : Device) : KeyboardMonitor × Option Bool :=
  if !(is_target_keyboard self device) then (self, none)
  else if now - self.last_event_time < self.debounce_delay then (self, none)
  else
    let s1 : KeyboardMonitor := { self with last_event_time := now }
    if action == "add" then
      if s1.keyboard_connected != some true then
        let s2 : KeyboardMonitor := { s1 with keyboard_connected := some true }
        if s2.loop_set then (s2, some true) else (s2, none)
      else (s1, none)
    else if action == "remove" then
      if s1.keyboard_connected != some false then
        let s2 : KeyboardMonitor := { s1 with keyboard_connected := some false }
        if s2.loop_set then (s2, some false) else (s2, none)
      else (s1, none)
    else (s1, none)

/-- Run loop of `KeyboardMonitor.start_monitoring` (lines 253-261) over a
finite schedule of polled events, each a timestamped `(action, device)`
pair: the handler is invoked only for "add"/"remove" actions.  Returns the
final monitor state and the switch-action targets scheduled, in order. -/
def monitor_loop (self : KeyboardMonitor) :
    List (ℚ × String × Device) → KeyboardMonitor × List Bool
  | [] => (self, [])
  | (t, a, d) :: rest =>
    if a == "add" || a == "remove" then
      let p := handle_device_event self t a d
      let q := monitor_loop p.1 rest
      (q.1, p.2.toList ++ q.2)
    else monitor_loop self rest

/-- `KeyboardMonitor.start_monitoring` (lines 226-263): set `self.loop`,
resolve the initial state from the startup enumeration (issuing its switch
action), then poll events in the run loop.  Returns the final monitor state
and all switch-action targets issued, in order. -/
def start_monitoring (self : KeyboardMonitor) (devices : List Device)
    (events : List (ℚ × String × Device)) : KeyboardMonitor × List Bool :=
  let s0 : KeyboardMonitor := { self with loop_set := true }
  let p := check_initial_state s0 devices
  let q := monitor_loop p.1 events
  (q.1, p.2 ++ q.2)

/-- Presence resolved by the startup scan, as characterised by the spec:
whether the enumeration contains a device matching the target identity. -/
def startup_presence (self : KeyboardMonitor) (devices : List Device) : Bool :=
  devices.any (fun d => is_target_keyboard self d)

/-- Helper: whether a trace contains an attempt of a given operation. -/
def attempted (o : Op) (tr : List (Op × Bool)) : Bool :=
  tr.any (fun e => e.1 == o)

/-- C2 counterexample: a wake failure is a device-control failure that is
not converted to a failed outcome: with every other step succeeding, the
trace records the failed wake attempt yet the invocation reports success. -/
theorem switch_wake_not_failed_counterexample :
    ((switch_input ⟨true, true, true, false, true, true, true⟩ true true).2.any
      (fun e => e.1 == Op.wake && !e.2)) = true ∧
    (switch_input ⟨true, true, true, false, true, true, true⟩ true true).1
      = Except.ok true := by
  decide

set_option maxRecDepth 40000 in
/-- C2 (amended): for every behaviour of the external device-control client
and every target state, `switch_input` returns a boolean outcome and never
lets an exception escape its own boundary, and the outcome is failure
exactly when one of storage setup, client creation, connect, input switch
or the success-path disconnect fails — so every device-control failure
other than a wake failure is converted to a failed (False) outcome, while a
wake failure leaves the outcome to the remaining steps. -/
theorem switch_input_total_and_failure :
    ∀ (b : Beh) (connected turn_on_screen : Bool),
      (∃ v : Bool, (switch_input b connected turn_on_screen).1 = Except.ok v) ∧
      ((switch_input b connected turn_on_screen).1 = Except.ok false ↔
        (b.storageOk && b.createOk && b.connectOk && b.launchOk && b.discOk) = false) := by
  decide

/-- C1 counterexample: when every step succeeds except the success-path
disconnect, the input-switch step completes without error (a successful
launch attempt is in the trace) yet the reported outcome is failure, so the
outcome is not "success iff the input-switch step completed without
error" and a release failure does change the reported outcome. -/
theorem switch_outcome_claim_counterexample :
    (switch_input ⟨true, true, true, true, true, false, true⟩ true true).1
      = Except.ok false ∧
    ((switch_input ⟨true, true, true, true, true, false, true⟩ true true).2.any
      (fun e => e.1 == Op.launch && e.2)) = true := by
  decide

set_option maxRecDepth 40000 in
/-- C1 (amended): a disconnect is attempted exactly on the paths where a
client was created, including when the input switch fails; the outcome is
success iff storage setup, client creation, connect, input switch and the
success-path disconnect all complete without error; the outcome never
depends on the error-path disconnect's result. -/
theorem switch_release_and_outcome :
    ∀ (b : Beh) (connected turn_on_screen : Bool),
      attempted Op.disc (switch_input b connected turn_on_screen).2
        = (b.storageOk && b.createOk) ∧
      ((switch_input b connected turn_on_screen).1 = Except.ok true ↔
        (b.storageOk && b.createOk && b.connectOk && b.launchOk && b.discOk) = true) ∧
      (switch_input { b with discOk2 := false } connected turn_on_screen).1
        = (switch_input { b with discOk2 := true } connected turn_on_screen).1 := by
  decide

set_option maxRecDepth 40000 in
/-- C7: the wake action is attempted exactly when the target state is
present, the wake-screen option is enabled, and control reached it (storage,
create and connect succeeded); the input switch is attempted whenever the
connection phase succeeded, regardless of the wake result; and the reported
outcome is invariant under the wake step's result. -/
theorem wake_failure_isolation :
    ∀ (b : Beh) (connected turn_on_screen : Bool),
      attempted Op.wake (switch_input b connected turn_on_screen).2
        = (connected && turn_on_screen && b.storageOk && b.createOk && b.connectOk) ∧
      attempted Op.launch (switch_input b connected turn_on_screen).2
        = (b.storageOk && b.createOk && b.connectOk) ∧
      (switch_input { b with wakeOk := false } connected turn_on_screen).1
        = (switch_input { b with wakeOk := true } connected turn_on_screen).1 := by
  decide

/-- C10: after `TVSwitcher.connect` the stored client field is set exactly
when the reported result is success (in particular a failed connect leaves
no leftover handle), and after every `TVSwitcher.disconnect` the client field
is cleared, even when the underlying disconnect fails. -/
theorem connect_disconnect_no_dangling :
    ∀ (s : TVSwitcher) (b : ConnBeh) (discOk : Bool),
      (TVSwitcher.connect s b).2.client = (TVSwitcher.connect s b).1 ∧
      (TVSwitcher.disconnect s discOk).1.client = false := by
  decide

/-- Helper: once `_cleanup_done` is set, further `cleanup` invocations do
nothing. -/
theorem cleanupN_done (s : TVSwitcher) (h : s.cleanup_done = true) :
    ∀ oks : List Bool, TVSwitcher.cleanupN s oks = (s, []) := by
  intro oks
  induction oks with
  | nil => rfl
  | cons ok rest ih => simp [TVSwitcher.cleanupN, TVSwitcher.cleanup, h, ih]

/-- Helper: `cleanup` always leaves `_cleanup_done` set. -/
theorem cleanup_sets_done (s : TVSwitcher) (ok : Bool) :
    (TVSwitcher.cleanup s ok).1.cleanup_done = true ∨
      ((TVSwitcher.cleanup s ok).1 = s ∧ s.cleanup_done = true) := by
  by_cases h : s.cleanup_done = true
  · right
    simp [TVSwitcher.cleanup, h]
  · left
    simp only [TVSwitcher.cleanup, TVSwitcher.disconnect]
    simp [h]
    split <;> simp

/-- C8: starting from a state where cleanup has not yet run, a sequence of
`cleanup` invocations performs the underlying disconnect at most once: the
whole sequence performs exactly the underlying disconnect attempts of the
first invocation (one when a client is held, none otherwise), and every
subsequent invocation performs none. -/
theorem cleanup_at_most_once (s : TVSwitcher) (ok : Bool) (rest : List Bool)
    (h : s.cleanup_done = false) :
    (TVSwitcher.cleanup s ok).2 = (if s.client then [ok] else []) ∧
    (TVSwitcher.cleanupN s (ok :: rest)).2 = (TVSwitcher.cleanup s ok).2 ∧
    (TVSwitcher.cleanupN s (ok :: rest)).2.length ≤ 1 := by
  have hdone : (TVSwitcher.cleanup s ok).1.cleanup_done = true := by
    rcases cleanup_sets_done s ok with h1 | ⟨_, h2⟩
    · exact h1
    · rw [h] at h2
      exact absurd h2 (by simp)
  have htail := cleanupN_done (TVSwitcher.cleanup s ok).1 hdone rest
  refine ⟨?_, ?_, ?_⟩
  · simp only [TVSwitcher.cleanup, TVSwitcher.disconnect, h]
    by_cases hc : s.client = true
    · simp [hc]
    · simp [hc]
  · simp [TVSwitcher.cleanupN, htail]
  · simp only [TVSwitcher.cleanupN, htail]
    simp only [TVSwitcher.cleanup, TVSwitcher.disconnect, h]
    by_cases hc : s.client = true
    · simp [hc]
    · simp [hc]

/-- C8 witness: a fresh switcher holding a client, cleaned up twice with a
failing first disconnect, performs exactly one underlying disconnect. -/
theorem cleanup_at_most_once_witness :
    (⟨true, true, false⟩ : TVSwitcher).cleanup_done = false ∧
    ((TVSwitcher.cleanup ⟨true, true, false⟩ false).2
        = (if (⟨true, true, false⟩ : TVSwitcher).client then [false] else []) ∧
      (TVSwitcher.cleanupN ⟨true, true, false⟩ [false, true]).2
        = (TVSwitcher.cleanup ⟨true, true, false⟩ false).2 ∧
      (TVSwitcher.cleanupN ⟨true, true, false⟩ [false, true]).2.length ≤ 1) :=
  ⟨by decide, cleanup_at_most_once ⟨true, true, false⟩ false [true] (by decide)⟩

/-- Helper: the guard-clause form of the event filter equals a single
boolean conjunction. -/
theorem target_eq_conj (s : KeyboardMonitor) (d : Device) :
    is_target_keyboard s d =
      ((d.ID_BUS == some "usb") && (d.ID_INPUT_KEYBOARD == some "1") &&
       ((str_lower (d.ID_VENDOR_ID.getD "") == s.vendor_id) &&
        (str_lower (d.ID_MODEL_ID.getD "") == s.model_id))) := by
  by_cases hb : d.ID_BUS = some "usb" <;>
    by_cases hk : d.ID_INPUT_KEYBOARD = some "1" <;>
    simp [is_target_keyboard, hb, hk]

/-- Helper: the startup scan's inline test agrees with the event filter. -/
theorem scan_eq_target (s : KeyboardMonitor) (d : Device) :
    initial_scan_match s d = is_target_keyboard s d := by
  rw [target_eq_conj]
  simp only [initial_scan_match]
  by_cases hb : d.ID_BUS = some "usb" <;>
    by_cases hk : d.ID_INPUT_KEYBOARD = some "1" <;>
    by_cases hv : str_lower (d.ID_VENDOR_ID.getD "") = s.vendor_id <;>
    by_cases hm : str_lower (d.ID_MODEL_ID.getD "") = s.model_id <;>
    simp [hb, hk, hv, hm, Bool.and_comm, Bool.and_left_comm, Bool.and_assoc]

/-- C9: the inline device-qualification test used by the startup scan
qualifies exactly the same device records as the event-path filter
`is_target_keyboard`. -/
theorem initial_scan_equiv_filter :
    ∀ (self : KeyboardMonitor) (device : Device),
      initial_scan_match self device = is_target_keyboard self device :=
  fun self device => scan_eq_target self device

/-- C4: an event qualifies iff the device's bus is "usb", it declares
keyboard capability, and its vendor and model identifiers match the
configured identity case-insensitively; an event failing the filter causes
no state change and no switch action. -/
theorem event_filter_correct (v m : String) (self : KeyboardMonitor)
    (now : ℚ) (action : String) (d : Device)
    (hv : self.vendor_id = str_lower v) (hm : self.model_id = str_lower m) :
    (is_target_keyboard self d = true ↔
      (d.ID_BUS = some "usb" ∧ d.ID_INPUT_KEYBOARD = some "1" ∧
       str_lower (d.ID_VENDOR_ID.getD "") = str_lower v ∧
       str_lower (d.ID_MODEL_ID.getD "") = str_lower m)) ∧
    (is_target_keyboard self d = false →
      handle_device_event self now action d = (self, none)) := by
  constructor
  · rw [target_eq_conj, hv, hm]
    simp [and_assoc]
  · intro hf
    simp [handle_device_event, hf]

/-- C4 witness: the filter of a monitor configured with mixed-case
identifiers accepts a matching device with the opposite casing, and a
device on a non-usb bus is ignored without state change. -/
theorem event_filter_correct_witness :
    (KeyboardMonitor.init "AB12" "cd34").vendor_id = str_lower "AB12" ∧
    (KeyboardMonitor.init "AB12" "cd34").model_id = str_lower "cd34" ∧
    ((is_target_keyboard (KeyboardMonitor.init "AB12" "cd34")
        ⟨some "bluetooth", some "1", some "ab12", some "CD34"⟩ = true ↔
      ((⟨some "bluetooth", some "1", some "ab12", some "CD34"⟩ : Device).ID_BUS
          = some "usb" ∧
        (⟨some "bluetooth", some "1", some "ab12", some "CD34"⟩ : Device).ID_INPUT_KEYBOARD
          = some "1" ∧
        str_lower ((⟨some "bluetooth", some "1", some "ab12", some "CD34"⟩ : Device).ID_VENDOR_ID.getD "")
          = str_lower "AB12" ∧
        str_lower ((⟨some "bluetooth", some "1", some "ab12", some "CD34"⟩ : Device).ID_MODEL_ID.getD "")
          = str_lower "cd34")) ∧
      (is_target_keyboard (KeyboardMonitor.init "AB12" "cd34")
          ⟨some "bluetooth", some "1", some "ab12", some "CD34"⟩ = false →
        handle_device_event (KeyboardMonitor.init "AB12" "cd34") 7 "add"
            ⟨some "bluetooth", some "1", some "ab12", some "CD34"⟩
          = (KeyboardMonitor.init "AB12" "cd34", none))) :=
  ⟨by decide, by decide,
    event_filter_correct "AB12" "cd34" (KeyboardMonitor.init "AB12" "cd34") 7 "add"
      ⟨some "bluetooth", some "1", some "ab12", some "CD34"⟩ (by decide) (by decide)⟩

/-- C3: with the debounce window of 0.5 s measured from the last accepted
event, a qualifying event of either direction arriving delta after the last
accepted event is dropped entirely (no state change, no action) iff
delta < 0.5, and accepted (its arrival time recorded as the new debounce
timestamp) iff delta ≥ 0.5. -/
theorem debounce_window (s : KeyboardMonitor) (d : Device) (action : String)
    (t delta : ℚ) (hdel : s.debounce_delay = 1/2) (hlast : s.last_event_time = t)
    (hq : is_target_keyboard s d = true) :
    (delta < 1/2 → handle_device_event s (t + delta) action d = (s, none)) ∧
    (1/2 ≤ delta →
      (handle_device_event s (t + delta) action d).1.last_event_time = t + delta) := by
  have harg : t + delta - s.last_event_time = delta := by rw [hlast]; ring
  constructor
  · intro hlt
    have hcond : t + delta - s.last_event_time < s.debounce_delay := by
      rw [harg, hdel]
      exact hlt
    simp [handle_device_event, hq, hcond]
  · intro hge
    have hnlt : ¬ (t + delta - s.last_event_time < s.debounce_delay) := by
      rw [harg, hdel]
      exact not_lt.mpr hge
    simp only [handle_device_event, hq, Bool.not_true, Bool.false_eq_true,
      if_false, if_neg hnlt]
    split
    · split
      · split <;> rfl
      · rfl
    · split
      · split
        · split <;> rfl
        · rfl
      · rfl

/-- C3 witness: for a monitor whose last accepted event was at time 10, a
qualifying "remove" event at 10.25 is dropped and one at 10.5 would be
accepted. -/
theorem debounce_window_witness :
    ({ (KeyboardMonitor.init "ab" "cd") with last_event_time := 10, loop_set := true } : KeyboardMonitor).debounce_delay = 1/2 ∧
    ({ (KeyboardMonitor.init "ab" "cd") with last_event_time := 10, loop_set := true } : KeyboardMonitor).last_event_time = 10 ∧
    is_target_keyboard
      { (KeyboardMonitor.init "ab" "cd") with last_event_time := 10, loop_set := true }
      ⟨some "usb", some "1", some "ab", some "cd"⟩ = true ∧
    (((1 : ℚ)/4 < 1/2 →
        handle_device_event
          { (KeyboardMonitor.init "ab" "cd") with last_event_time := 10, loop_set := true }
          (10 + 1/4) "remove" ⟨some "usb", some "1", some "ab", some "cd"⟩
          = ({ (KeyboardMonitor.init "ab" "cd") with last_event_time := 10, loop_set := true }, none)) ∧
      ((1 : ℚ)/2 ≤ 1/4 →
        (handle_device_event
          { (KeyboardMonitor.init "ab" "cd") with last_event_time := 10, loop_set := true }
          (10 + 1/4) "remove" ⟨some "usb", some "1", some "ab", some "cd"⟩).1.last_event_time
          = 10 + 1/4)) :=
  ⟨rfl, rfl, by decide,
    debounce_window
      { (KeyboardMonitor.init "ab" "cd") with last_event_time := 10, loop_set := true }
      ⟨some "usb", some "1", some "ab", some "cd"⟩ "remove" 10 (1/4)
      rfl rfl (by decide)⟩

/-- Helper: a qualifying event whose direction already matches the tracked
presence state neither schedules a switch action nor changes the tracked
presence. -/
theorem handle_same_direction (s : KeyboardMonitor) (now : ℚ) (action : String)
    (d : Device) (ha : action = "add" ∨ action = "remove")
    (hkc : s.keyboard_connected = some (action == "add")) :
    (handle_device_event s now action d).2 = none ∧
    (handle_device_event s now action d).1.keyboard_connected
      = s.keyboard_connected := by
  rcases ha with rfl | rfl
  · simp only [show (("add" : String) == "add") = true from rfl] at hkc
    simp [handle_device_event, hkc]
    split_ifs <;> simp [hkc]
  · simp only [show (("remove" : String) == "add") = false by decide] at hkc
    simp [handle_device_event, hkc]
    split_ifs <;> simp [hkc]

/-- Helper: a run-loop schedule consisting solely of events in the direction
already tracked produces no switch actions. -/
theorem monitor_loop_same_direction (action : String)
    (ha : action = "add" ∨ action = "remove") :
    ∀ (events : List (ℚ × String × Device)) (s : KeyboardMonitor),
      s.keyboard_connected = some (action == "add") →
      (∀ e ∈ events, e.2.1 = action) →
      (monitor_loop s events).2 = [] := by
  intro events
  induction events with
  | nil => intro s _ _; rfl
  | cons e rest ih =>
    intro s hkc hall
    obtain ⟨t, a, d⟩ := e
    have ha2 : a = action := hall (t, a, d) (by simp)
    subst ha2
    have hguard : (a == "add" || a == "remove") = true := by
      rcases ha with rfl | rfl <;> decide
    have hstep := handle_same_direction s t a d ha hkc
    simp only [monitor_loop, hguard, if_true]
    rw [hstep.1]
    simp only [Option.toList_none, List.nil_append]
    exact ih (handle_device_event s t a d).1 (hstep.2.trans hkc)
      (fun e he => hall e (List.mem_cons_of_mem _ he))

/-- C5: for an accepted qualifying event (filter passed, debounce window
elapsed, event loop set), a switch action is scheduled iff the event's
direction maps to a presence state differing from the tracked one, and the
tracked state afterwards equals the event's direction; consequently a
schedule of accepted events repeating the tracked direction produces no
switch action at all until an opposite-direction event is accepted. -/
theorem idempotent_observation :
    (∀ (s : KeyboardMonitor) (d : Device) (action : String) (now : ℚ),
      (action = "add" ∨ action = "remove") →
      is_target_keyboard s d = true →
      ¬ (now - s.last_event_time < s.debounce_delay) →
      s.loop_set = true →
      (((handle_device_event s now action d).2 = some (action == "add") ↔
          ¬ s.keyboard_connected = some (action == "add")) ∧
        (handle_device_event s now action d).1.keyboard_connected
          = some (action == "add"))) ∧
    (∀ (s : KeyboardMonitor) (action : String)
        (events : List (ℚ × String × Device)),
      (action = "add" ∨ action = "remove") →
      s.keyboard_connected = some (action == "add") →
      (∀ e ∈ events, e.2.1 = action) →
      (monitor_loop s events).2 = []) := by
  constructor
  · intro s d action now ha hq hnd hl
    rcases ha with rfl | rfl
    · by_cases hkc : s.keyboard_connected = some true <;>
        simp [handle_device_event, hq, hnd, hl, hkc]
    · by_cases hkc : s.keyboard_connected = some false <;>
        simp [handle_device_event, hq, hnd, hl, hkc]
  · intro s action events ha hkc hall
    exact monitor_loop_same_direction action ha events s hkc hall

/-- C5 witness: an accepted "add" event on a monitor tracking absence
schedules a switch to present and records presence; a repeated "add" event
on a monitor already tracking presence produces no action. -/
theorem idempotent_observation_witness :
    (("add" : String) = "add" ∨ ("add" : String) = "remove") ∧
    is_target_keyboard ⟨"ab", "cd", some false, 0, 1/2, true⟩
      ⟨some "usb", some "1", some "ab", some "cd"⟩ = true ∧
    ¬ ((1 : ℚ) - (⟨"ab", "cd", some false, 0, 1/2, true⟩ : KeyboardMonitor).last_event_time
        < (⟨"ab", "cd", some false, 0, 1/2, true⟩ : KeyboardMonitor).debounce_delay) ∧
    (⟨"ab", "cd", some false, 0, 1/2, true⟩ : KeyboardMonitor).loop_set = true ∧
    (((handle_device_event ⟨"ab", "cd", some false, 0, 1/2, true⟩ 1 "add"
          ⟨some "usb", some "1", some "ab", some "cd"⟩).2 = some ("add" == "add") ↔
        ¬ (⟨"ab", "cd", some false, 0, 1/2, true⟩ : KeyboardMonitor).keyboard_connected
          = some ("add" == "add")) ∧
      (handle_device_event ⟨"ab", "cd", some false, 0, 1/2, true⟩ 1 "add"
          ⟨some "usb", some "1", some "ab", some "cd"⟩).1.keyboard_connected
        = some ("add" == "add")) ∧
    ((⟨"ab", "cd", some true, 0, 1/2, true⟩ : KeyboardMonitor).keyboard_connected
        = some ("add" == "add")) ∧
    (∀ e ∈ [((5 : ℚ), "add", (⟨some "usb", some "1", some "ab", some "cd"⟩ : Device))],
      e.2.1 = "add") ∧
    (monitor_loop ⟨"ab", "cd", some true, 0, 1/2, true⟩
        [((5 : ℚ), "add", ⟨some "usb", some "1", some "ab", some "cd"⟩)]).2 = [] :=
  ⟨Or.inl rfl, by decide,
    by
      show ¬ ((1 : ℚ) - 0 < 1/2)
      norm_num,
    rfl,
    idempotent_observation.1 ⟨"ab", "cd", some false, 0, 1/2, true⟩
      ⟨some "usb", some "1", some "ab", some "cd"⟩ "add" 1 (Or.inl rfl) (by decide)
      (by
        show ¬ ((1 : ℚ) - 0 < 1/2)
        norm_num)
      rfl,
    by decide,
    by decide,
    idempotent_observation.2 ⟨"ab", "cd", some true, 0, 1/2, true⟩ "add"
      [((5 : ℚ), "add", ⟨some "usb", some "1", some "ab", some "cd"⟩)] (Or.inl rfl)
      (by decide) (by decide)⟩

/-- C6: for any startup enumeration and any subsequent event schedule, the
initial presence resolves to present iff the enumeration contains a device
matching the target identity, and exactly one switch action carrying that
presence is issued before any run-loop action. -/
theorem startup_determinism (self : KeyboardMonitor) (devices : List Device)
    (events : List (ℚ × String × Device)) :
    check_initial_state { self with loop_set := true } devices =
      ({ self with
          loop_set := true,
          keyboard_connected := some (startup_presence self devices) },
        [startup_presence self devices]) ∧
    (start_monitoring self devices events).2 =
      startup_presence self devices ::
        (monitor_loop
          { self with
              loop_set := true,
              keyboard_connected := some (startup_presence self devices) }
          events).2 := by
  have h1 : (fun d => initial_scan_match { self with loop_set := true } d)
      = fun d => is_target_keyboard self d := by
    funext d
    exact scan_eq_target { self with loop_set := true } d
  have hany : devices.any (fun d => initial_scan_match { self with loop_set := true } d)
      = startup_presence self devices := by
    rw [h1]
    rfl
  constructor
  · simp only [check_initial_state, hany]
    cases hp : startup_presence self devices <;> simp [hp]
  · simp only [start_monitoring, check_initial_state, hany]
    cases hp : startup_presence self devices <;> simp [hp]
